import Mathlib

/-
  Verification of the battery-cell monitoring core
  (source: battery_monitor_streamlit.py).

  The numeric model uses exact rationals for the Python floats; the
  built-in Python rounding (round half to even) is modelled exactly on ℚ.
  Python dicts become Lean structures; the two dict shapes accepted by
  calculate_session_averages become the sum type Entry, and a Python
  KeyError is modelled as Option.none.
-/

namespace BatteryMonitor

/-- Chemistry identifiers: the keys of the CELL_TYPES policy table. -/
inductive CellType
  | LFP
  | NMC
  | LCO
deriving DecidableEq, Repr

/-- One entry of the CELL_TYPES table (the per-chemistry policy record). -/
structure ChemistrySpec where
  nominal_voltage : ℚ
  minimum_voltage : ℚ
  maximum_voltage : ℚ
  charge_time : ℕ
  discharge_time : ℕ
deriving DecidableEq, Repr

/-- The CELL_TYPES policy table from the source, with its exact constants. -/
def CELL_TYPES : CellType → ChemistrySpec
  | .LFP => { nominal_voltage := 32/10, minimum_voltage := 28/10,
              maximum_voltage := 36/10, charge_time := 90, discharge_time := 180 }
  | .NMC => { nominal_voltage := 36/10, minimum_voltage := 32/10,
              maximum_voltage := 4, charge_time := 120, discharge_time := 240 }
  | .LCO => { nominal_voltage := 38/10, minimum_voltage := 3,
              maximum_voltage := 42/10, charge_time := 100, discharge_time := 200 }

/-- The four health statuses returned by get_cell_status. -/
inductive Status
  | Critical
  | Warning
  | High
  | Normal
deriving DecidableEq, Repr

/-- Embedding of get_cell_status: the short-circuited if/elif chain. -/
def get_cell_status (voltage temperature : ℚ) (cell_type : CellType) : Status :=
  let specs := CELL_TYPES cell_type
  if voltage ≤ specs.minimum_voltage * (11/10) ∨ temperature > 45 then
    .Critical
  else if voltage ≤ specs.minimum_voltage * (12/10) ∨ temperature > 40 then
    .Warning
  else if voltage ≥ specs.maximum_voltage * (9/10) then
    .High
  else
    .Normal

/-- The Python builtin round to an integer: round half to even. -/
def roundHalfEven (x : ℚ) : ℤ :=
  if Int.fract x < 1/2 then ⌊x⌋
  else if 1/2 < Int.fract x then ⌊x⌋ + 1
  else if ⌊x⌋ % 2 = 0 then ⌊x⌋ else ⌊x⌋ + 1

/-- The Python builtin round with an ndigits argument, on the exact-rational model of floats. -/
def pyround (x : ℚ) (ndigits : ℕ) : ℚ :=
  (roundHalfEven (x * 10 ^ ndigits) : ℚ) / 10 ^ ndigits

theorem floor_le_roundHalfEven (x : ℚ) : ⌊x⌋ ≤ roundHalfEven x := by
  unfold roundHalfEven
  split
  · exact le_refl _
  · split
    · omega
    · split <;> omega

theorem roundHalfEven_le_ceil (x : ℚ) : roundHalfEven x ≤ ⌈x⌉ := by
  have hfc : ⌊x⌋ ≤ ⌈x⌉ := Int.floor_le_ceil x
  have key : 1/2 ≤ Int.fract x → ⌊x⌋ + 1 ≤ ⌈x⌉ := by
    intro h
    have hx : (⌊x⌋ : ℚ) < x := by
      have := Int.fract_nonneg x
      have hlt : (0 : ℚ) < Int.fract x := lt_of_lt_of_le (by norm_num) h
      have : (⌊x⌋ : ℚ) + Int.fract x = x := Int.floor_add_fract x
      linarith
    have hxc : x ≤ (⌈x⌉ : ℚ) := Int.le_ceil x
    have : (⌊x⌋ : ℚ) < (⌈x⌉ : ℚ) := lt_of_lt_of_le hx hxc
    exact_mod_cast Int.add_one_le_of_lt (by exact_mod_cast this)
  unfold roundHalfEven
  split
  · exact hfc
  · split
    · next h2 => exact key (le_of_lt h2)
    · split
      · exact hfc
      · exact key (le_of_not_lt (by assumption))

theorem pyround_nonneg (x : ℚ) (n : ℕ) (hx : 0 ≤ x) : 0 ≤ pyround x n := by
  unfold pyround
  apply div_nonneg _ (by positivity)
  have h0 : (0 : ℤ) ≤ ⌊x * 10 ^ n⌋ := Int.floor_nonneg.mpr (by positivity)
  have := floor_le_roundHalfEven (x * 10 ^ n)
  exact_mod_cast le_trans h0 this

theorem pyround_le (x : ℚ) (n : ℕ) (B : ℤ) (hx : x ≤ B) : pyround x n ≤ B := by
  unfold pyround
  rw [div_le_iff₀ (by positivity)]
  have h1 : roundHalfEven (x * 10 ^ n) ≤ ⌈x * 10 ^ n⌉ := roundHalfEven_le_ceil _
  have h2 : ⌈x * 10 ^ n⌉ ≤ B * 10 ^ n := by
    apply Int.ceil_le.mpr
    push_cast
    have : (0 : ℚ) < 10 ^ n := by positivity
    nlinarith
  calc ((roundHalfEven (x * 10 ^ n) : ℚ)) ≤ (⌈x * 10 ^ n⌉ : ℚ) := by exact_mod_cast h1
    _ ≤ (B : ℚ) * 10 ^ n := by exact_mod_cast h2

/-- The fields written by generate_cell_data (the per-tick reading dict). -/
structure CellData where
  voltage : ℚ
  current : ℚ
  temperature : ℚ
  capacity : ℚ
  soc : ℚ
  timestamp : ℕ
deriving DecidableEq, Repr

/-- A cell dict after the Generate Cells handler added id/name/type. -/
structure Cell where
  id : ℕ
  name : String
  type : CellType
  voltage : ℚ
  current : ℚ
  temperature : ℚ
  capacity : ℚ
  soc : ℚ
  timestamp : ℕ
deriving DecidableEq, Repr

/-- dict.update of a cell dict with the keys produced by generate_cell_data. -/
def Cell.updateData (c : Cell) (d : CellData) : Cell :=
  { c with voltage := d.voltage, current := d.current,
           temperature := d.temperature, capacity := d.capacity,
           soc := d.soc, timestamp := d.timestamp }

/-- np.clip on scalars (with lo ≤ hi this is min (max x lo) hi). -/
def npclip (x lo hi : ℚ) : ℚ := min (max x lo) hi

/-- Embedding of generate_cell_data. The three np.random.random() draws are
passed in as explicit parameters randV, randC, randT, and datetime.now() as
the parameter now. -/
def generate_cell_data (cell_type : CellType) (randV randC randT : ℚ)
    (now : ℕ) : CellData :=
  let specs := CELL_TYPES cell_type
  let base_voltage := specs.nominal_voltage
  let voltage_variation := (randV - 1/2) * (2/10)
  let voltage := npclip (base_voltage + voltage_variation)
                   specs.minimum_voltage specs.maximum_voltage
  let current := max (1/10) (8/10 + (randC - 1/2) * (5/10))
  let temperature := 25 + randT * 20
  let capacity := voltage * current
  let voltage_range := specs.maximum_voltage - specs.minimum_voltage
  let soc := ((voltage - specs.minimum_voltage) / voltage_range) * 100
  { voltage := pyround voltage 2,
    current := pyround current 2,
    temperature := pyround temperature 1,
    capacity := pyround capacity 2,
    soc := pyround soc 1,
    timestamp := now }

/-- A task dict, restricted to the fields the core reads. -/
structure Task where
  id : ℕ
  type : String
  duration : ℕ
  progress : ℚ
  status : String
deriving DecidableEq, Repr

/-- One element appended to st.session_state.session_data by Update Data. -/
structure Snapshot where
  timestamp : ℕ
  cells : List Cell
  tasks : List Task
deriving DecidableEq, Repr

/-- The two dict shapes calculate_session_averages accepts: a snapshot dict
(which has a cells key) or a flat cell dict (which has no cells key). -/
inductive Entry
  | snap (s : Snapshot)
  | cell (c : Cell)
deriving DecidableEq, Repr

/-- The Python test of whether the element is a dict containing a cells key. -/
def Entry.hasCellsField : Entry → Bool
  | .snap _ => true
  | .cell _ => false

/-- Accessing the cells key of an entry; a KeyError on a flat cell dict becomes none. -/
def Entry.getCells : Entry → Option (List Cell)
  | .snap s => some s.cells
  | .cell _ => none

/-- Treating the entry as a cell dict (reading voltage/temperature/soc/
capacity keys); a KeyError on a snapshot dict becomes none. -/
def Entry.getCell : Entry → Option Cell
  | .snap _ => none
  | .cell c => some c

/-- The dict returned by calculate_session_averages. -/
structure Summary where
  voltage : ℚ
  temperature : ℚ
  soc : ℚ
  capacity : ℚ
deriving DecidableEq, Repr

/-- The all-zero summary. -/
def zeroSummary : Summary := { voltage := 0, temperature := 0, soc := 0, capacity := 0 }

/-- np.mean of a list of rationals (meaningful only on nonempty input,
exactly where the source calls it). -/
def npmean (l : List ℚ) : ℚ := l.sum / l.length

/-- The rounded four-field mean over a flat list of cell readings
(the tail end of calculate_session_averages). -/
def meanSummary (cells_data : List Cell) : Summary :=
  { voltage := pyround (npmean (cells_data.map Cell.voltage)) 2,
    temperature := pyround (npmean (cells_data.map Cell.temperature)) 1,
    soc := pyround (npmean (cells_data.map Cell.soc)) 1,
    capacity := pyround (npmean (cells_data.map Cell.capacity)) 2 }

/-- The loop building all_cells: extend with each element under its cells
key, propagating the KeyError (none) raised on an element without one. -/
def collectCells : List Entry → Option (List Cell)
  | [] => some []
  | e :: rest =>
    match e.getCells with
    | none => none
    | some cs => (collectCells rest).map (fun acc => cs ++ acc)

/-- Reading every element of cells_data as a cell dict (what the four list
comprehensions do on the flat branch), propagating the KeyError (none)
raised on a snapshot dict. -/
def collectFlat : List Entry → Option (List Cell)
  | [] => some []
  | e :: rest =>
    match e.getCell with
    | none => none
    | some c => (collectFlat rest).map (fun acc => c :: acc)

/-- The snapshot-sequence branch of calculate_session_averages, applied to
a whole input list. -/
def snapshotPath (session_data : List Entry) : Option Summary :=
  match collectCells session_data with
  | none => none
  | some cells_data =>
    if cells_data.isEmpty then some zeroSummary
    else some (meanSummary cells_data)

/-- The flat-reading-list branch of calculate_session_averages, applied to
a whole input list. -/
def flatPath (session_data : List Entry) : Option Summary :=
  match collectFlat session_data with
  | none => none
  | some cells_data =>
    if cells_data.isEmpty then some zeroSummary
    else some (meanSummary cells_data)

/-- Embedding of calculate_session_averages. A raised KeyError (mixed-shape
input hitting a missing key) is modelled as none; every normal return is
some. -/
def calculate_session_averages (session_data : List Entry) : Option Summary :=
  match session_data with
  | [] => some zeroSummary
  | e :: rest =>
    if e.hasCellsField then snapshotPath (e :: rest)
    else flatPath (e :: rest)

/-- One CSV row built by export_to_csv, with the columns in source order. -/
structure Row where
  timestamp : ℕ
  cellName : String
  cellType : CellType
  voltage : ℚ
  current : ℚ
  temperature : ℚ
  capacity : ℚ
  soc : ℚ
  status : Status
  activeTask : String
  taskProgress : ℚ
deriving DecidableEq, Repr

/-- The generator expression taking the next task whose status key equals
running, defaulting to None. -/
def firstRunning (tasks : List Task) : Option Task :=
  tasks.find? (fun t => t.status == "running")

/-- The row dict export_to_csv appends for one cell of one snapshot. -/
def mkRow (session : Snapshot) (cell : Cell) : Row :=
  let active_task := firstRunning session.tasks
  { timestamp := session.timestamp,
    cellName := cell.name,
    cellType := cell.type,
    voltage := cell.voltage,
    current := cell.current,
    temperature := cell.temperature,
    capacity := cell.capacity,
    soc := cell.soc,
    status := get_cell_status cell.voltage cell.temperature cell.type,
    activeTask := match active_task with
      | some t => t.type
      | none => "None",
    taskProgress := match active_task with
      | some t => t.progress
      | none => 0 }

/-- Embedding of export_to_csv: data_rows starts empty and the nested for
loops append one row per (snapshot, cell) pair. The cells_data and
tasks_data arguments of the source are unused there and omitted. -/
def export_to_csv (session_data : List Snapshot) : List Row :=
  session_data.foldl
    (fun data_rows session =>
      session.cells.foldl (fun rows cell => rows ++ [mkRow session cell]) data_rows)
    []

/-- What create_comparison_chart builds: either the early-return empty
figure, or a grouped bar chart of the two four-metric summaries. -/
inductive ChartResult
  | emptyFigure
  | comparison (current previous : Summary)
deriving DecidableEq, Repr

/-- Embedding of create_comparison_chart; none models an uncaught exception
escaping from calculate_session_averages. -/
def create_comparison_chart (current_data previous_data : List Entry) :
    Option ChartResult :=
  if current_data.isEmpty ∨ previous_data.isEmpty then
    some .emptyFigure
  else
    match calculate_session_averages current_data,
          calculate_session_averages previous_data with
    | some current_avg, some previous_avg =>
        some (.comparison current_avg previous_avg)
    | _, _ => none

/-- What the Compare Sessions button handler shows the user. -/
inductive CompareOutcome
  | rendered (chart : ChartResult)
  | insufficientDataWarning
  | exceptionRaised
deriving DecidableEq, Repr

/-- Embedding of the Compare Sessions handler in main: it renders the chart
only when both session-data lists are truthy (nonempty), and otherwise
shows the warning that current and previous session data are required. -/
def compareSessionsHandler (session_data previous_session_data : List Entry) :
    CompareOutcome :=
  if ¬session_data.isEmpty ∧ ¬previous_session_data.isEmpty then
    match create_comparison_chart session_data previous_session_data with
    | some chart => .rendered chart
    | none => .exceptionRaised
  else
    .insufficientDataWarning

/-
  Mutable-state model for the Update Data handler.

  In Python, st.session_state.cells_data is a list of references to cell
  dicts, and session_data.append stores cells_data.copy(): a shallow copy
  holding the same references. We model the dict heap explicitly: store
  maps a cell id (the reference) to the current contents of that dict, the
  live list and every recorded snapshot hold ids, and reading snapshot cells
  dereferences the store at observation time, exactly as Python does.
-/

/-- A recorded session_data element: the shallow-copied list of cell
references plus the timestamp (tasks omitted; nothing here mutates them). -/
structure SnapRef where
  timestamp : ℕ
  cellRefs : List ℕ
deriving DecidableEq, Repr

/-- The st.session_state pieces the Update Data handler touches. -/
structure AppState where
  store : ℕ → Cell
  cellIds : List ℕ
  session_data : List SnapRef

/-- One click of the Update Data button: every live cell dict is mutated in
place via cell.update(generate_cell_data(...)), then a snapshot holding a
shallow copy of the live reference list is appended. rand gives each cell
id its three np.random.random() draws. -/
def updateData (st : AppState) (rand : ℕ → ℚ × ℚ × ℚ) (now : ℕ) : AppState :=
  if st.cellIds.isEmpty then st
  else
    let store' := fun i =>
      if i ∈ st.cellIds then
        let c := st.store i
        let r := rand i
        c.updateData (generate_cell_data c.type r.1 r.2.1 r.2.2 now)
      else st.store i
    { store := store',
      cellIds := st.cellIds,
      session_data := st.session_data ++ [{ timestamp := now, cellRefs := st.cellIds }] }

/-- Reading the cell dicts of a recorded snapshot, as any later observer
(the exporter, the aggregator, the SOC-over-time chart) does: dereference
the stored references against the current heap. -/
def observeSnapshot (st : AppState) (snap : SnapRef) : List Cell :=
  snap.cellRefs.map st.store

theorem collectCells_map_snap (l : List Snapshot) :
    collectCells (l.map Entry.snap) = some ((l.map Snapshot.cells).flatten) := by
  induction l with
  | nil => rfl
  | cons s ss ih => simp [collectCells, Entry.getCells, ih]

theorem collectFlat_map_cell (l : List Cell) :
    collectFlat (l.map Entry.cell) = some l := by
  induction l with
  | nil => rfl
  | cons c cs ih => simp [collectFlat, Entry.getCell, ih]

theorem collectCells_eq_none (l : List Entry) (e : Entry) (he : e ∈ l)
    (hbad : e.hasCellsField = false) : collectCells l = none := by
  induction l with
  | nil => cases he
  | cons x xs ih =>
    rcases List.mem_cons.mp he with rfl | hmem
    · cases e with
      | snap s => simp [Entry.hasCellsField] at hbad
      | cell c => simp [collectCells, Entry.getCells]
    · cases hx : x.getCells with
      | none => simp [collectCells, hx]
      | some cs => simp [collectCells, hx, ih hmem]

theorem collectFlat_eq_none (l : List Entry) (e : Entry) (he : e ∈ l)
    (hbad : e.hasCellsField = true) : collectFlat l = none := by
  induction l with
  | nil => cases he
  | cons x xs ih =>
    rcases List.mem_cons.mp he with rfl | hmem
    · cases e with
      | snap s => simp [collectFlat, Entry.getCell]
      | cell c => simp [Entry.hasCellsField] at hbad
    · cases hx : x.getCell with
      | none => simp [collectFlat, hx]
      | some c => simp [collectFlat, hx, ih hmem]

theorem calc_averages_snaps (l : List Snapshot) (hne : l ≠ []) :
    calculate_session_averages (l.map Entry.snap)
      = if ((l.map Snapshot.cells).flatten).isEmpty then some zeroSummary
        else some (meanSummary ((l.map Snapshot.cells).flatten)) := by
  obtain ⟨s0, rest, rfl⟩ := List.exists_cons_of_ne_nil hne
  have h1 : calculate_session_averages ((s0 :: rest).map Entry.snap)
      = snapshotPath ((s0 :: rest).map Entry.snap) := by
    simp [calculate_session_averages, Entry.hasCellsField]
  rw [h1]
  unfold snapshotPath
  rw [collectCells_map_snap]

theorem calc_averages_flat (l : List Cell) (hne : l ≠ []) :
    calculate_session_averages (l.map Entry.cell)
      = if l.isEmpty then some zeroSummary else some (meanSummary l) := by
  obtain ⟨c0, rest, rfl⟩ := List.exists_cons_of_ne_nil hne
  have h1 : calculate_session_averages ((c0 :: rest).map Entry.cell)
      = flatPath ((c0 :: rest).map Entry.cell) := by
    simp [calculate_session_averages, Entry.hasCellsField]
  rw [h1]
  unfold flatPath
  rw [collectFlat_map_cell]

theorem cells_foldl_append (s : Snapshot) (cells : List Cell) (acc : List Row) :
    cells.foldl (fun rows cell => rows ++ [mkRow s cell]) acc
      = acc ++ cells.map (mkRow s) := by
  induction cells generalizing acc with
  | nil => simp
  | cons c cs ih => simp [ih]

theorem export_foldl_eq (l : List Snapshot) (acc : List Row) :
    l.foldl (fun data_rows session =>
        session.cells.foldl (fun rows cell => rows ++ [mkRow session cell]) data_rows) acc
      = acc ++ (l.map (fun s => s.cells.map (mkRow s))).flatten := by
  induction l generalizing acc with
  | nil => simp
  | cons s ss ih =>
    rw [List.foldl_cons, cells_foldl_append, ih, List.map_cons, List.flatten_cons,
      List.append_assoc]

theorem export_to_csv_eq_flatten (l : List Snapshot) :
    export_to_csv l = (l.map (fun s => s.cells.map (mkRow s))).flatten := by
  simpa using export_foldl_eq l []

theorem find?_eq_some_first {α : Type} (p : α → Bool) (l : List α) (a : α)
    (h : l.find? p = some a) :
    p a = true ∧ ∃ i, ∃ hi : i < l.length, l.get ⟨i, hi⟩ = a ∧
      ∀ j, ∀ hj : j < l.length, j < i → p (l.get ⟨j, hj⟩) = false := by
  induction l with
  | nil => simp at h
  | cons x xs ih =>
    by_cases hp : p x = true
    · rw [List.find?_cons_of_pos _ hp] at h
      obtain rfl : x = a := by injection h
      exact ⟨hp, 0, Nat.succ_pos _, rfl,
        fun j hj hj0 => absurd hj0 (Nat.not_lt_zero j)⟩
    · have hp2 : p x = false := by simpa using hp
      rw [List.find?_cons_of_neg _ (by simp [hp2])] at h
      obtain ⟨hpa, i, hi, hget, hbefore⟩ := ih h
      refine ⟨hpa, i + 1, Nat.succ_lt_succ hi, hget, ?_⟩
      intro j hj hj0
      match j, hj, hj0 with
      | 0, _, _ => exact hp2
      | j0 + 1, hj, hj0 =>
        exact hbefore j0 (Nat.lt_of_succ_lt_succ hj) (Nat.lt_of_succ_lt_succ hj0)

/-- Claim C1: get_cell_status returns exactly one of the four statuses, by
short-circuit precedence Critical, then Warning, then High, then Normal,
with the stated threshold clauses; in particular a reading with
temperature above 45 and voltage at least 90 percent of maxVoltage is
Critical. -/
theorem C1_classifier_precedence (v t : ℚ) (ct : CellType) :
    ((get_cell_status v t ct = .Critical) ↔
      (v ≤ (CELL_TYPES ct).minimum_voltage * (11/10) ∨ t > 45)) ∧
    ((get_cell_status v t ct = .Warning) ↔
      (¬(v ≤ (CELL_TYPES ct).minimum_voltage * (11/10) ∨ t > 45) ∧
       (v ≤ (CELL_TYPES ct).minimum_voltage * (12/10) ∨ t > 40))) ∧
    ((get_cell_status v t ct = .High) ↔
      (¬(v ≤ (CELL_TYPES ct).minimum_voltage * (11/10) ∨ t > 45) ∧
       ¬(v ≤ (CELL_TYPES ct).minimum_voltage * (12/10) ∨ t > 40) ∧
       v ≥ (CELL_TYPES ct).maximum_voltage * (9/10))) ∧
    ((get_cell_status v t ct = .Normal) ↔
      (¬(v ≤ (CELL_TYPES ct).minimum_voltage * (11/10) ∨ t > 45) ∧
       ¬(v ≤ (CELL_TYPES ct).minimum_voltage * (12/10) ∨ t > 40) ∧
       ¬(v ≥ (CELL_TYPES ct).maximum_voltage * (9/10)))) ∧
    (t > 45 → v ≥ (CELL_TYPES ct).maximum_voltage * (9/10) →
      get_cell_status v t ct = .Critical) := by
  simp only [get_cell_status]
  split_ifs with h1 h2 h3 <;> simp_all

/-- Witness for C1: the crafted reading voltage 3.5 V, temperature 46 on
LFP satisfies both the Critical temperature clause and the High voltage
clause, and classifies as Critical. -/
theorem C1_classifier_precedence_witness :
    (46 : ℚ) > 45 ∧
    (35/10 : ℚ) ≥ (CELL_TYPES .LFP).maximum_voltage * (9/10) ∧
    get_cell_status (35/10) 46 .LFP = .Critical := by
  refine ⟨by norm_num, by norm_num [CELL_TYPES], ?_⟩
  exact (C1_classifier_precedence (35/10) 46 .LFP).2.2.2.2
    (by norm_num) (by norm_num [CELL_TYPES])

/-- Claim C6: export_to_csv produces one row per (snapshot, reading) pair,
in snapshot order then reading order, so the row count is the sum of the
per-snapshot reading counts. -/
theorem C6_exporter_rows (session_data : List Snapshot) :
    export_to_csv session_data
      = (session_data.map (fun s => s.cells.map (mkRow s))).flatten ∧
    (export_to_csv session_data).length
      = (session_data.map (fun s => s.cells.length)).sum := by
  refine ⟨export_to_csv_eq_flatten _, ?_⟩
  rw [export_to_csv_eq_flatten, List.length_flatten, List.map_map]
  simp [Function.comp_def]

/-- Claim C7: every exported row of a snapshot reports as active task the
first task in the snapshot task list whose status is running (the
earliest-listed one even when several are running), and reports None with
progress 0 when no task is running. -/
theorem C7_active_task_first_running (s : Snapshot) (r : Row)
    (hr : r ∈ export_to_csv [s]) :
    (∀ t, firstRunning s.tasks = some t →
        r.activeTask = t.type ∧ r.taskProgress = t.progress ∧
        t.status = "running" ∧
        ∃ i, ∃ hi : i < s.tasks.length, s.tasks.get ⟨i, hi⟩ = t ∧
          ∀ j, ∀ hj : j < s.tasks.length, j < i →
            (s.tasks.get ⟨j, hj⟩).status ≠ "running") ∧
    (firstRunning s.tasks = none → r.activeTask = "None" ∧ r.taskProgress = 0) := by
  rw [export_to_csv_eq_flatten] at hr
  simp only [List.map_cons, List.map_nil, List.flatten_cons, List.flatten_nil,
    List.append_nil, List.mem_map] at hr
  obtain ⟨c, hc, rfl⟩ := hr
  constructor
  · intro t ht
    obtain ⟨hpt, i, hi, hget, hbefore⟩ := find?_eq_some_first _ _ _ ht
    refine ⟨by simp [mkRow, ht], by simp [mkRow, ht], by simpa using hpt,
      i, hi, hget, ?_⟩
    intro j hj hj0
    simpa using hbefore j hj hj0
  · intro ht
    exact ⟨by simp [mkRow, ht], by simp [mkRow, ht]⟩

/-- A pending task, first in the witness task list. -/
def wTaskPending : Task :=
  { id := 1, type := "IDLE", duration := 300, progress := 0, status := "pending" }

/-- The earliest-listed running task of the witness task list. -/
def wTaskRunA : Task :=
  { id := 2, type := "CC_CV", duration := 300, progress := 40, status := "running" }

/-- A second, later-listed running task of the witness task list. -/
def wTaskRunB : Task :=
  { id := 3, type := "CC_CD", duration := 300, progress := 10, status := "running" }

/-- A concrete LFP cell reading used by witnesses. -/
def wCellA : Cell :=
  { id := 1, name := "Cell_1", type := .LFP, voltage := 3, current := 1,
    temperature := 30, capacity := 3, soc := 50, timestamp := 0 }

/-- A second concrete LFP cell reading used by witnesses. -/
def wCellB : Cell :=
  { id := 2, name := "Cell_2", type := .LFP, voltage := 301/100, current := 1,
    temperature := 31, capacity := 3, soc := 60, timestamp := 0 }

/-- A witness snapshot with one cell and two simultaneously running tasks. -/
def wSnapTasks : Snapshot :=
  { timestamp := 5, cells := [wCellA], tasks := [wTaskPending, wTaskRunA, wTaskRunB] }

/-- Witness for C7: with tasks pending, running CC_CV, running CC_CD in
that order, the exported row reports the earliest-listed running task. -/
theorem C7_active_task_first_running_witness :
    mkRow wSnapTasks wCellA ∈ export_to_csv [wSnapTasks] ∧
    firstRunning wSnapTasks.tasks = some wTaskRunA ∧
    (mkRow wSnapTasks wCellA).activeTask = "CC_CV" ∧
    (mkRow wSnapTasks wCellA).taskProgress = 40 := by
  have hmem : mkRow wSnapTasks wCellA ∈ export_to_csv [wSnapTasks] := by
    rw [export_to_csv_eq_flatten]
    simp [wSnapTasks]
  have hfind : firstRunning wSnapTasks.tasks = some wTaskRunA := by
    simp [firstRunning, wSnapTasks, wTaskPending, wTaskRunA, List.find?]
  have h := (C7_active_task_first_running wSnapTasks (mkRow wSnapTasks wCellA) hmem).1
    wTaskRunA hfind
  exact ⟨hmem, hfind, by rw [h.1, wTaskRunA], by rw [h.2.1, wTaskRunA]⟩

/-- Claim C3: on a snapshot sequence the aggregator averages over the
concatenation of all snapshot readings in snapshot-then-reading order, a
reading-weighted mean whose denominator is the total reading count. -/
theorem C3_reading_weighted_mean (l : List Snapshot)
    (h : (l.map Snapshot.cells).flatten ≠ []) :
    calculate_session_averages (l.map Entry.snap)
      = some (meanSummary ((l.map Snapshot.cells).flatten)) ∧
    npmean (((l.map Snapshot.cells).flatten).map Cell.voltage)
      = (((l.map Snapshot.cells).flatten).map Cell.voltage).sum
        / ((((l.map (fun s => s.cells.length)).sum : ℕ)) : ℚ) := by
  have hne : l ≠ [] := by
    rintro rfl
    simp at h
  constructor
  · rw [calc_averages_snaps l hne, if_neg (by simpa [List.isEmpty_iff] using h)]
  · have hlen : (((l.map Snapshot.cells).flatten).map Cell.voltage).length
        = (l.map (fun s => s.cells.length)).sum := by
      rw [List.length_map, List.length_flatten, List.map_map]
      simp [Function.comp_def]
    unfold npmean
    rw [hlen]

/-- Witness for C3: one snapshot with a single 3.0 V reading and one with
three 4.0 V readings aggregate to mean voltage 3.75, not 3.5. -/
theorem C3_reading_weighted_mean_witness :
    ((([{ timestamp := 0, cells := [{ wCellA with voltage := 3 }], tasks := [] },
        { timestamp := 1,
          cells := [{ wCellA with voltage := 4 }, { wCellA with voltage := 4 },
                    { wCellA with voltage := 4 }], tasks := [] }] :
        List Snapshot).map Snapshot.cells).flatten ≠ []) ∧
    ∃ summary,
      calculate_session_averages
        (([{ timestamp := 0, cells := [{ wCellA with voltage := 3 }], tasks := [] },
           { timestamp := 1,
             cells := [{ wCellA with voltage := 4 }, { wCellA with voltage := 4 },
                       { wCellA with voltage := 4 }], tasks := [] }] :
           List Snapshot).map Entry.snap) = some summary ∧
      summary.voltage = 15/4 := by
  have h := C3_reading_weighted_mean
    [{ timestamp := 0, cells := [{ wCellA with voltage := 3 }], tasks := [] },
     { timestamp := 1,
       cells := [{ wCellA with voltage := 4 }, { wCellA with voltage := 4 },
                 { wCellA with voltage := 4 }], tasks := [] }] (by simp)
  refine ⟨by simp, _, h.1, ?_⟩
  norm_num [meanSummary, npmean, pyround, roundHalfEven, Int.fract, wCellA]

theorem flatten_cells_nil (l : List Snapshot) (hl : ∀ s ∈ l, s.cells = []) :
    ((l.map Snapshot.cells).flatten = []) := by
  induction l with
  | nil => rfl
  | cons a b ih =>
    simp only [List.map_cons, List.flatten_cons]
    rw [hl a (by simp), ih (fun x hx => hl x (List.mem_cons_of_mem _ hx))]
    rfl

/-- Claim C4: the aggregator maps the empty list, and any snapshot list
whose snapshots hold zero readings in total, to the all-zero summary,
never an error. -/
theorem C4_empty_input_zero :
    calculate_session_averages [] = some zeroSummary ∧
    ∀ l : List Snapshot, (∀ s ∈ l, s.cells = []) →
      calculate_session_averages (l.map Entry.snap) = some zeroSummary := by
  refine ⟨rfl, ?_⟩
  intro l hl
  cases l with
  | nil => rfl
  | cons s rest =>
    rw [calc_averages_snaps _ (by simp), flatten_cells_nil _ hl]
    rfl

/-- Witness for C4: a single snapshot with an empty readings list
aggregates to the all-zero summary. -/
theorem C4_empty_input_zero_witness :
    calculate_session_averages [Entry.snap { timestamp := 7, cells := [], tasks := [] }]
      = some zeroSummary := by
  have h := C4_empty_input_zero.2 [{ timestamp := 7, cells := [], tasks := [] }]
    (by intro s hs; simp at hs; rw [hs])
  simpa using h

/-- Claim C5: on nonempty input each output mean is the exact rational
mean rounded exactly once at the end, voltage and capacity to 2 decimal
places, temperature and SOC to 1. -/
theorem C5_round_once_final (l : List Cell) (h : l ≠ []) :
    calculate_session_averages (l.map Entry.cell)
      = some { voltage := pyround (npmean (l.map Cell.voltage)) 2,
               temperature := pyround (npmean (l.map Cell.temperature)) 1,
               soc := pyround (npmean (l.map Cell.soc)) 1,
               capacity := pyround (npmean (l.map Cell.capacity)) 2 } := by
  rw [calc_averages_flat l h, if_neg (by simpa [List.isEmpty_iff] using h)]
  rfl

/-- Witness for C5: two cells with voltages 3 and 3.01 average to 3.005,
which the final 2-place banker rounding takes to 3; the other three means
are likewise rounded once at the end. -/
theorem C5_round_once_final_witness :
    (([wCellA, wCellB] : List Cell) ≠ []) ∧
    calculate_session_averages [Entry.cell wCellA, Entry.cell wCellB]
      = some { voltage := 3, temperature := 61/2, soc := 55, capacity := 3 } := by
  have h := C5_round_once_final [wCellA, wCellB] (by simp)
  refine ⟨by simp, ?_⟩
  rw [show ([Entry.cell wCellA, Entry.cell wCellB] : List Entry)
        = [wCellA, wCellB].map Entry.cell from rfl, h]
  norm_num [wCellA, wCellB, npmean, pyround, roundHalfEven, Int.fract]

/-- Claim C8: when either side of the comparison is an empty session, the
Compare Sessions handler surfaces the explicit insufficient-data warning,
and create_comparison_chart returns its early empty figure, never a
zero-valued comparison. -/
theorem C8_comparator_empty_side (a b : List Entry) (h : a = [] ∨ b = []) :
    compareSessionsHandler a b = .insufficientDataWarning ∧
    create_comparison_chart a b = some .emptyFigure ∧
    ∀ ca pa, create_comparison_chart a b ≠ some (.comparison ca pa) := by
  rcases h with rfl | rfl
  · refine ⟨by simp [compareSessionsHandler], by simp [create_comparison_chart], ?_⟩
    intro ca pa hcp
    simp [create_comparison_chart] at hcp
  · refine ⟨by simp [compareSessionsHandler], by simp [create_comparison_chart], ?_⟩
    intro ca pa hcp
    simp [create_comparison_chart] at hcp

/-- Witness for C8: comparing an empty current session against a nonempty
previous one yields the warning, not an all-zero comparison. -/
theorem C8_comparator_empty_side_witness :
    (([] : List Entry) = [] ∨ ([Entry.cell wCellA] : List Entry) = []) ∧
    compareSessionsHandler [] [Entry.cell wCellA] = .insufficientDataWarning ∧
    create_comparison_chart [] [Entry.cell wCellA] = some .emptyFigure := by
  have h := C8_comparator_empty_side [] [Entry.cell wCellA] (Or.inl rfl)
  exact ⟨Or.inl rfl, h.1, h.2.1⟩

theorem soc_expr_bounds (lo hi v : ℚ) (hlh : lo < hi) (h1 : lo ≤ v) (h2 : v ≤ hi) :
    0 ≤ ((v - lo) / (hi - lo)) * 100 ∧ ((v - lo) / (hi - lo)) * 100 ≤ 100 := by
  have hpos : (0 : ℚ) < hi - lo := by linarith
  constructor
  · apply mul_nonneg (div_nonneg (by linarith) (le_of_lt hpos))
    norm_num
  · have hle1 : (v - lo) / (hi - lo) ≤ 1 := by
      rw [div_le_one hpos]
      linarith
    nlinarith

/-- Claim C9: generate_cell_data clamps the raw voltage into the
chemistry range before deriving SOC as the scaled position in that range,
so the returned SOC lies in [0, 100] for every chemistry and every draw,
including draws whose raw voltage would leave the range. -/
theorem C9_soc_in_range (ct : CellType) (randV randC randT : ℚ) (now : ℕ) :
    (CELL_TYPES ct).minimum_voltage
      ≤ npclip ((CELL_TYPES ct).nominal_voltage + (randV - 1/2) * (2/10))
          (CELL_TYPES ct).minimum_voltage (CELL_TYPES ct).maximum_voltage ∧
    npclip ((CELL_TYPES ct).nominal_voltage + (randV - 1/2) * (2/10))
        (CELL_TYPES ct).minimum_voltage (CELL_TYPES ct).maximum_voltage
      ≤ (CELL_TYPES ct).maximum_voltage ∧
    0 ≤ (generate_cell_data ct randV randC randT now).soc ∧
    (generate_cell_data ct randV randC randT now).soc ≤ 100 := by
  have hminmax : (CELL_TYPES ct).minimum_voltage < (CELL_TYPES ct).maximum_voltage := by
    cases ct <;> norm_num [CELL_TYPES]
  set lo := (CELL_TYPES ct).minimum_voltage with hlo
  set hi := (CELL_TYPES ct).maximum_voltage with hhi
  set raw := (CELL_TYPES ct).nominal_voltage + (randV - 1/2) * (2/10) with hraw
  have hclip1 : lo ≤ npclip raw lo hi :=
    le_min (le_max_right _ _) (le_of_lt hminmax)
  have hclip2 : npclip raw lo hi ≤ hi := min_le_right _ _
  have hsoc : (generate_cell_data ct randV randC randT now).soc
      = pyround (((npclip raw lo hi - lo) / (hi - lo)) * 100) 1 := rfl
  obtain ⟨hb1, hb2⟩ := soc_expr_bounds lo hi (npclip raw lo hi) hminmax hclip1 hclip2
  refine ⟨hclip1, hclip2, ?_, ?_⟩
  · rw [hsoc]
    exact pyround_nonneg _ _ hb1
  · rw [hsoc]
    have := pyround_le (((npclip raw lo hi - lo) / (hi - lo)) * 100) 1 100 (by exact_mod_cast hb2)
    exact_mod_cast this

/-- Claim C10: for nonempty input the aggregator picks its branch by
inspecting only the first element: the whole list goes down the
snapshot-sequence path exactly when the first element carries a cells
field, and otherwise entirely down the flat path; a mixed list is never
detected as mixed, the chosen path just dereferences every element
uniformly (raising, modelled as none, on the foreign shape). -/
theorem C10_first_element_dispatch (e : Entry) (rest : List Entry) :
    (calculate_session_averages (e :: rest)
      = if e.hasCellsField then snapshotPath (e :: rest) else flatPath (e :: rest)) ∧
    (e.hasCellsField = true ↔ ∃ s, e = Entry.snap s) ∧
    (e.hasCellsField = true → (∃ e2 ∈ rest, e2.hasCellsField = false) →
      calculate_session_averages (e :: rest) = none) ∧
    (e.hasCellsField = false → (∃ e2 ∈ rest, e2.hasCellsField = true) →
      calculate_session_averages (e :: rest) = none) := by
  refine ⟨rfl, ?_, ?_, ?_⟩
  · cases e <;> simp [Entry.hasCellsField]
  · rintro he ⟨e2, he2, hbad⟩
    have hcc : collectCells (e :: rest) = none :=
      collectCells_eq_none _ e2 (List.mem_cons_of_mem _ he2) hbad
    simp [calculate_session_averages, he, snapshotPath, hcc]
  · rintro he ⟨e2, he2, hbad⟩
    have hcf : collectFlat (e :: rest) = none :=
      collectFlat_eq_none _ e2 (List.mem_cons_of_mem _ he2) hbad
    simp [calculate_session_averages, he, flatPath, hcf]

/-- Witness for C10: a snapshot-led list with a flat cell in the tail, and
a cell-led list with a snapshot in the tail, both fail with a KeyError
(none) instead of being detected as mixed. -/
theorem C10_first_element_dispatch_witness :
    (Entry.snap wSnapTasks).hasCellsField = true ∧
    (Entry.cell wCellA).hasCellsField = false ∧
    calculate_session_averages [Entry.snap wSnapTasks, Entry.cell wCellA] = none ∧
    calculate_session_averages [Entry.cell wCellA, Entry.snap wSnapTasks] = none := by
  have h1 := (C10_first_element_dispatch (Entry.snap wSnapTasks) [Entry.cell wCellA]).2.2.1
    rfl ⟨Entry.cell wCellA, by simp, rfl⟩
  have h2 := (C10_first_element_dispatch (Entry.cell wCellA) [Entry.snap wSnapTasks]).2.2.2
    rfl ⟨Entry.snap wSnapTasks, by simp, rfl⟩
  exact ⟨rfl, rfl, h1, h2⟩

/-- The initial heap for the two-tick refutation of claim C2: one LFP cell
dict, referenced by id 1 from the live cell list. -/
def c2cell : Cell :=
  { id := 1, name := "Cell_1", type := .LFP, voltage := 32/10, current := 8/10,
    temperature := 30, capacity := 64/25, soc := 50, timestamp := 0 }

/-- Session state before any Update Data click. -/
def c2state0 : AppState :=
  { store := fun _ => c2cell, cellIds := [1], session_data := [] }

/-- Random draws of the first tick: voltage variation -0.1 V. -/
def c2rand1 : ℕ → ℚ × ℚ × ℚ := fun _ => (0, 1/2, 0)

/-- Random draws of the second tick: voltage variation +0.1 V. -/
def c2rand2 : ℕ → ℚ × ℚ × ℚ := fun _ => (1, 1/2, 0)

/-- State after the first Update Data click. -/
def c2state1 : AppState := updateData c2state0 c2rand1 1

/-- State after the second Update Data click. -/
def c2state2 : AppState := updateData c2state1 c2rand2 2

/-- The cell dict contents after the first tick (voltage 3.1 V). -/
def c2cellAfter1 : Cell := c2cell.updateData (generate_cell_data .LFP 0 (1/2) 0 1)

/-- The cell dict contents after the second tick (voltage 3.3 V). -/
def c2cellAfter2 : Cell := c2cellAfter1.updateData (generate_cell_data .LFP 1 (1/2) 0 2)

theorem c2state1_sd : c2state1.session_data = [{ timestamp := 1, cellRefs := [1] }] := by
  simp [c2state1, c2state0, updateData]

theorem c2state1_cellIds : c2state1.cellIds = [1] := by
  simp [c2state1, c2state0, updateData]

theorem c2state1_store1 : c2state1.store 1 = c2cellAfter1 := by
  simp [c2state1, c2state0, updateData, c2rand1, c2cellAfter1, c2cell]

theorem c2state2_sd : c2state2.session_data
    = [{ timestamp := 1, cellRefs := [1] }, { timestamp := 2, cellRefs := [1] }] := by
  simp [c2state2, updateData, c2state1_cellIds, c2state1_sd]

theorem c2state2_store1 : c2state2.store 1 = c2cellAfter2 := by
  have htype : c2cellAfter1.type = CellType.LFP := rfl
  simp [c2state2, updateData, c2state1_cellIds, c2state1_store1, c2rand2,
    c2cellAfter2, htype]

theorem c2cellAfter1_voltage : c2cellAfter1.voltage = 31/10 := by
  norm_num [c2cellAfter1, c2cell, Cell.updateData, generate_cell_data, CELL_TYPES,
    npclip, pyround, roundHalfEven, Int.fract]

theorem c2cellAfter2_voltage : c2cellAfter2.voltage = 33/10 := by
  norm_num [c2cellAfter2, Cell.updateData, generate_cell_data, CELL_TYPES,
    npclip, pyround, roundHalfEven, Int.fract]

/-- Claim C2 fails on the code: the snapshot recorded at tick 1 holds a
shallow copy of the live cell reference list, so after tick 2 mutates the
shared cell dict in place, the previously recorded snapshot reads back the
tick-2 voltage 3.3 V instead of its recorded 3.1 V, while the history list
itself only grew at the end with unchanged references. -/
theorem C2_recorded_snapshot_mutates :
    (c2state1.session_data.map SnapRef.cellRefs = [[1]]) ∧
    (c2state2.session_data.map SnapRef.cellRefs = [[1], [1]]) ∧
    (c2state1.session_data.map
        (fun sn => (observeSnapshot c2state1 sn).map Cell.voltage) = [[31/10]]) ∧
    (c2state2.session_data.map
        (fun sn => (observeSnapshot c2state2 sn).map Cell.voltage) = [[33/10], [33/10]]) ∧
    (31/10 : ℚ) ≠ 33/10 := by
  refine ⟨?_, ?_, ?_, ?_, by norm_num⟩
  · rw [c2state1_sd]
    rfl
  · rw [c2state2_sd]
    rfl
  · rw [c2state1_sd]
    simp [observeSnapshot, c2state1_store1, c2cellAfter1_voltage]
  · rw [c2state2_sd]
    simp [observeSnapshot, c2state2_store1, c2cellAfter2_voltage]

end BatteryMonitor
